import Mathlib

/-!
Verification of the cricket dashboard (`src/dashboard.py`).

The program loads CSV files into pandas DataFrames, optionally filters the
tables to the matches of a selected team, and computes a fixed set of
aggregates (runs distribution, totals, top-10 leaderboards, win margins,
player-of-the-match awards).  This file gives a shallow embedding of that
pipeline: a `DataFrame` is a list of column names together with rows of
optional cells (`none` models a NaN / missing value), column access mirrors
pandas lookup (raising `KeyError` as `Except.error` when the column is
absent), and the per-section computations of `show_dashboard` are translated
function by function.
-/

namespace CricketDash

/-- A scalar cell value: pandas object cells carry strings or integers here. -/
inductive Value where
  | vStr : String → Value
  | vInt : Int → Value
deriving DecidableEq, Repr

/-- A cell of a DataFrame; `none` models NaN (a missing value). -/
abbrev Cell := Option Value

/-- An in-memory table: named columns and rows of cells (row-major).
Mirrors a pandas DataFrame to the extent the dashboard uses one. -/
structure DataFrame where
  cols : List String
  rows : List (List Cell)
deriving DecidableEq, Repr

/-- `pd.DataFrame()` — the table with no columns and no rows. -/
def emptyDF : DataFrame := ⟨[], []⟩

/-- `df.empty` in pandas: true when the table has no rows or no columns. -/
def DataFrame.isEmptyDF (df : DataFrame) : Bool :=
  df.rows.isEmpty || df.cols.isEmpty

/-- Position of a column label, if present. -/
def DataFrame.colIdx (df : DataFrame) (c : String) : Option Nat :=
  df.cols.findIdx? (· == c)

/-- `df[c]` — the column as a list of cells; `KeyError` when absent. -/
def DataFrame.col (df : DataFrame) (c : String) : Except String (List Cell) :=
  match df.colIdx c with
  | some i => .ok (df.rows.map (fun r => r.getD i none))
  | none => .error ("KeyError: " ++ c)

/-- `df[df[c].map p]` — keep the rows whose cell in column `c` satisfies `p`;
`KeyError` when the column is absent. -/
def DataFrame.filterByCol (df : DataFrame) (c : String) (p : Cell → Bool) :
    Except String DataFrame :=
  match df.colIdx c with
  | some i => .ok ⟨df.cols, df.rows.filter (fun r => p (r.getD i none))⟩
  | none => .error ("KeyError: " ++ c)

/-- `pat` occurs as a contiguous sublist of `hay`. -/
def listContainsSub : List Char → List Char → Bool
  | hay, pat =>
    pat.isPrefixOf hay ||
      match hay with
      | [] => false
      | _ :: t => listContainsSub t pat

/-- Case-sensitive substring containment, the semantics of
`Series.str.contains(pat)` for a plain (regex-metacharacter-free) pattern. -/
def strContains (s pat : String) : Bool :=
  listContainsSub s.toList pat.toList

/-- The cell predicate of `matches_df["teams"].str.contains(team, na=False)`:
NaN and non-string cells count as `False` (`na=False`). -/
def cellContainsStr (pat : String) : Cell → Bool
  | some (Value.vStr s) => strContains s pat
  | _ => false

/-- Extract an integer from a cell, `none` for NaN or non-numeric cells. -/
def cellInt : Cell → Option Int
  | some (Value.vInt n) => some n
  | _ => none

/-- `Series.sum()` — sum of the numeric cells, skipping NaN; `0` on empty. -/
def cellSum (cells : List Cell) : Int :=
  (cells.filterMap cellInt).sum

/-- The environment of filesystem facts the dashboard reads:
which paths exist, what `pd.read_csv` parses at an existing path,
directory listings, and which entries are directories. -/
structure FileSystem where
  pathExists : String → Bool
  readTable : String → DataFrame
  listDir : String → List String
  isDir : String → Bool

/-- `os.path.join` as used by the dashboard (POSIX separator). -/
def pathJoin (a b : String) : String := a ++ "/" ++ b

/-- `BASE_PATH` from the source. -/
def BASE_PATH : String := "cricket/analysis"

/-- `load_csv(path)`: parse an existing file, otherwise `pd.DataFrame()`. -/
def load_csv (fs : FileSystem) (path : String) : DataFrame :=
  if fs.pathExists path then fs.readTable path else emptyDF

/-- `get_players(folder, team=None)`: list the subdirectories of the
category's `player` directory; the `team` parameter is accepted but unused,
exactly as in the source. -/
def get_players (fs : FileSystem) (folder : String) (team : Option String) :
    List String :=
  let player_dir := pathJoin (pathJoin BASE_PATH folder) "player"
  if fs.pathExists player_dir then
    (fs.listDir player_dir).filter (fun d => fs.isDir (pathJoin player_dir d))
  else []

/-- The three top-level tables `show_dashboard` loads. -/
structure Tables where
  ball_df : DataFrame
  info_df : DataFrame
  matches_df : DataFrame
deriving DecidableEq, Repr

/-- Lines 44–49 of `show_dashboard`: when a team is selected and the matches
table is non-empty, select the matches whose `teams` field contains the team,
take their `match_id` values as `valid_match_ids`, and restrict the ball,
info and matches tables to those ids.  The returned `Option (List Cell)` is
the binding state of the Python local `valid_match_ids`: `none` when the
branch did not run and the variable stays unbound. -/
def teamFilter (team : Option String) (t : Tables) :
    Except String (Tables × Option (List Cell)) :=
  match team with
  | none => .ok (t, none)
  | some tm =>
    if t.matches_df.isEmptyDF then .ok (t, none)
    else
      match t.matches_df.filterByCol "teams" (cellContainsStr tm) with
      | .error e => .error e
      | .ok team_matches =>
        match team_matches.col "match_id" with
        | .error e => .error e
        | .ok midCells =>
          let vids := midCells.dedup
          match t.ball_df.filterByCol "match_id" (fun c => vids.contains c) with
          | .error e => .error e
          | .ok ball2 =>
            match t.info_df.filterByCol "match_id" (fun c => vids.contains c) with
            | .error e => .error e
            | .ok info2 =>
              match t.matches_df.filterByCol "match_id" (fun c => vids.contains c) with
              | .error e => .error e
              | .ok matches2 => .ok (⟨ball2, info2, matches2⟩, some vids)

/-- `if team: df = df[df["match_id"].isin(valid_match_ids)]` (lines 94, 107,
120): when a team is selected, the per-player table is filtered through
`valid_match_ids`; referencing an unbound `valid_match_ids` is a
`NameError`. -/
def filterPlayerDF (team : Option String) (vids : Option (List Cell))
    (df : DataFrame) : Except String DataFrame :=
  match team with
  | none => .ok df
  | some _ =>
    match vids with
    | none => .error "NameError: valid_match_ids"
    | some ids => df.filterByCol "match_id" (fun c => ids.contains c)

/-- Line 57: `ball_df["runs_batter"].value_counts().reindex([0,1,2,3,4,6],
fill_value=0)` — for each of the six run values, the number of ball rows
whose `runs_batter` equals it (a value absent from the data keeps count 0,
values outside the six are dropped by the reindex). -/
def runsDistribution (ball_df : DataFrame) : Except String (List (Int × Nat)) :=
  match ball_df.col "runs_batter" with
  | .error e => .error e
  | .ok cells =>
    .ok ([0, 1, 2, 3, 4, 6].map (fun v => (v, cells.count (some (Value.vInt v)))))

/-- Lines 78–84: the Totals table — sum of `runs_total`, count of non-null
`wicket_type`, sum of `runs_extras`, and the row count, in that order.  Each
column access raises `KeyError` when the column is absent. -/
def totals (ball_df : DataFrame) : Except String (Int × Nat × Int × Nat) :=
  match ball_df.col "runs_total" with
  | .error e => .error e
  | .ok rt =>
    match ball_df.col "wicket_type" with
    | .error e => .error e
    | .ok wt =>
      match ball_df.col "runs_extras" with
      | .error e => .error e
      | .ok re =>
        .ok (cellSum rt, (wt.filter (fun c => c.isSome)).length, cellSum re,
          ball_df.rows.length)

/-- Stable sort of a list into non-increasing order of `key`, the model of
`DataFrame.sort_values(key, ascending=False)`. -/
def sortByDesc {α β : Type} [LinearOrder β] (key : α → β) (l : List α) : List α :=
  List.insertionSort (fun a b => key b ≤ key a) l

/-- `Series.value_counts()` — the distinct non-null values paired with their
multiplicities, in non-increasing order of count. -/
def valueCounts (cells : List Cell) : List (Value × Nat) :=
  sortByDesc Prod.snd
    (((cells.filterMap id).dedup).map (fun v => (v, cells.count (some v))))

/-- One player subdirectory under `player/`: the directory name and the
tables parsed from whichever of `batter.csv`, `bowler.csv`, `fielder.csv`
exist (`none` models a missing file, which skips the player). -/
structure PlayerData where
  pname : String
  batter : Option DataFrame
  bowler : Option DataFrame
  fielder : Option DataFrame
deriving DecidableEq, Repr

/-- Lines 88–95: accumulate `(pname, df["runs_batter"].sum())` over the
players that have a `batter.csv`, applying the team filter to each table. -/
def collectRunData (team : Option String) (vids : Option (List Cell)) :
    List PlayerData → Except String (List (String × Int))
  | [] => .ok []
  | p :: ps =>
    match p.batter with
    | none => collectRunData team vids ps
    | some df =>
      match filterPlayerDF team vids df with
      | .error e => .error e
      | .ok df2 =>
        match df2.col "runs_batter" with
        | .error e => .error e
        | .ok cells =>
          match collectRunData team vids ps with
          | .error e => .error e
          | .ok rest => .ok ((p.pname, cellSum cells) :: rest)

/-- Line 96: the Top 10 Run Scorers leaderboard — the per-player run sums
sorted by runs descending, truncated to 10. -/
def topRunScorers (team : Option String) (vids : Option (List Cell))
    (players : List PlayerData) : Except String (List (String × Int)) :=
  match collectRunData team vids players with
  | .error e => .error e
  | .ok data => .ok ((sortByDesc Prod.snd data).take 10)

/-- Lines 101–108: accumulate `(pname, df["wicket_type"].notna().sum())`
over the players that have a `bowler.csv`. -/
def collectWkData (team : Option String) (vids : Option (List Cell)) :
    List PlayerData → Except String (List (String × Nat))
  | [] => .ok []
  | p :: ps =>
    match p.bowler with
    | none => collectWkData team vids ps
    | some df =>
      match filterPlayerDF team vids df with
      | .error e => .error e
      | .ok df2 =>
        match df2.col "wicket_type" with
        | .error e => .error e
        | .ok cells =>
          match collectWkData team vids ps with
          | .error e => .error e
          | .ok rest =>
            .ok ((p.pname, (cells.filter (fun c => c.isSome)).length) :: rest)

/-- Line 109: the Top 10 Wicket Takers leaderboard. -/
def topWicketTakers (team : Option String) (vids : Option (List Cell))
    (players : List PlayerData) : Except String (List (String × Nat)) :=
  match collectWkData team vids players with
  | .error e => .error e
  | .ok data => .ok ((sortByDesc Prod.snd data).take 10)

/-- Lines 114–123: accumulate `(pname, catches+runouts, catches, runouts)`
over the players that have a `fielder.csv`, where `catches` counts rows with
`wicket_type == "caught"` and `runouts` rows with `wicket_type == "run out"`. -/
def collectFldData (team : Option String) (vids : Option (List Cell)) :
    List PlayerData → Except String (List (String × Nat × Nat × Nat))
  | [] => .ok []
  | p :: ps =>
    match p.fielder with
    | none => collectFldData team vids ps
    | some df =>
      match filterPlayerDF team vids df with
      | .error e => .error e
      | .ok df2 =>
        match df2.col "wicket_type" with
        | .error e => .error e
        | .ok cells =>
          match collectFldData team vids ps with
          | .error e => .error e
          | .ok rest =>
            let catches := cells.count (some (Value.vStr "caught"))
            let runouts := cells.count (some (Value.vStr "run out"))
            .ok ((p.pname, catches + runouts, catches, runouts) :: rest)

/-- Line 124: the Top 10 Fielders leaderboard, ranked by `total` descending. -/
def topFielders (team : Option String) (vids : Option (List Cell))
    (players : List PlayerData) :
    Except String (List (String × Nat × Nat × Nat)) :=
  match collectFldData team vids players with
  | .error e => .error e
  | .ok data => .ok ((sortByDesc (fun e => e.2.1) data).take 10)

/-- Lines 146–151: the Player of the Match Awards section — rendered exactly
when the matches table is non-empty and has a `player_of_match` column;
`none` means the section is absent from the output. -/
def pomSection (matches_df : DataFrame) : Option (List (Value × Nat)) :=
  if !matches_df.isEmptyDF && matches_df.cols.contains "player_of_match" then
    match matches_df.col "player_of_match" with
    | .ok cells => some (valueCounts cells)
    | .error _ => none
  else none

/-- `df[cs]` — restriction to a list of columns; `KeyError` when any of
them is absent. -/
def selectCols (df : DataFrame) (cs : List String) : Except String DataFrame :=
  match cs.mapM (fun c => df.colIdx c) with
  | some idxs => .ok ⟨cs, df.rows.map (fun r => idxs.map (fun i => r.getD i none))⟩
  | none => .error "KeyError: column selection"

/-- `df.dropna(how="all")` — drop the rows whose cells are all null. -/
def dropnaAll (df : DataFrame) : DataFrame :=
  ⟨df.cols, df.rows.filter (fun r => r.any (fun c => c.isSome))⟩

/-- `df.head(n)` — the first `n` rows. -/
def headDF (n : Nat) (df : DataFrame) : DataFrame :=
  ⟨df.cols, df.rows.take n⟩

/-- The four columns line 163 selects for the Win Margins preview. -/
def marginCols : List String :=
  ["outcome.winner", "outcome.by.wickets", "outcome.by.runs", "outcome.result"]

/-- Lines 154–164: the Win Margins preview.  It is attempted only inside the
Match Winners section (matches table non-empty with an `outcome.winner`
column) and when `outcome.by.wickets` or `outcome.by.runs` is present; it
then selects all four of `marginCols` (a `KeyError` if any is absent), drops
the rows where all four are null, and keeps the first 20 rows.  `.ok none`
means the section is absent from the output. -/
def winMargins (matches_df : DataFrame) : Except String (Option DataFrame) :=
  if !matches_df.isEmptyDF && matches_df.cols.contains "outcome.winner" then
    if matches_df.cols.contains "outcome.by.wickets"
        || matches_df.cols.contains "outcome.by.runs" then
      match selectCols matches_df marginCols with
      | .error e => .error e
      | .ok sub => .ok (some (headDF 20 (dropnaAll sub)))
    else .ok none
  else .ok none

/-! Concrete sample data, used to instantiate the theorems below. -/

/-- The ball-events table of the spec's scenario: three deliveries, columns
`match_id` and `runs_batter` only (no `runs_total`). -/
def ballSample : DataFrame :=
  ⟨["match_id", "runs_batter"],
   [[some (Value.vInt 1), some (Value.vInt 4)],
    [some (Value.vInt 1), some (Value.vInt 0)],
    [some (Value.vInt 2), some (Value.vInt 6)]]⟩

/-- A ball-events table with the full schema the Totals section reads. -/
def ballFull : DataFrame :=
  ⟨["match_id", "runs_batter", "runs_total", "runs_extras", "wicket_type"],
   [[some (Value.vInt 1), some (Value.vInt 4), some (Value.vInt 4),
     some (Value.vInt 0), none],
    [some (Value.vInt 1), some (Value.vInt 0), some (Value.vInt 1),
     some (Value.vInt 1), some (Value.vStr "caught")]]⟩

/-- The matches table of the spec's scenario. -/
def matchesScenario : DataFrame :=
  ⟨["match_id", "teams"],
   [[some (Value.vInt 1), some (Value.vStr "India vs Australia")],
    [some (Value.vInt 2), some (Value.vStr "England vs Australia")]]⟩

/-- A small info table with a `match_id` column. -/
def infoSample : DataFrame :=
  ⟨["match_id", "toss_winner"],
   [[some (Value.vInt 1), some (Value.vStr "India")],
    [some (Value.vInt 2), some (Value.vStr "Australia")]]⟩

/-- The scenario's three top-level tables. -/
def tablesScenario : Tables := ⟨ballSample, infoSample, matchesScenario⟩

/-- Tables with a non-empty ball table but an empty matches table — the
configuration that exercises the empty-matches branch of the team filter. -/
def tablesEmptyMatches : Tables := ⟨ballSample, infoSample, emptyDF⟩

/-- A matches table with `outcome.winner` and `outcome.by.wickets` but
without `outcome.by.runs` and `outcome.result`. -/
def matchesNoResult : DataFrame :=
  ⟨["match_id", "outcome.winner", "outcome.by.wickets"],
   [[some (Value.vInt 1), some (Value.vStr "India"), some (Value.vInt 5)]]⟩

/-- A matches table with all four win-margin preview columns; the second
row has all four outcome cells null. -/
def matchesFull : DataFrame :=
  ⟨["match_id", "teams", "outcome.winner", "outcome.by.wickets",
    "outcome.by.runs", "outcome.result"],
   [[some (Value.vInt 1), some (Value.vStr "India vs Australia"),
     some (Value.vStr "India"), some (Value.vInt 5), none, none],
    [some (Value.vInt 2), some (Value.vStr "England vs Australia"),
     none, none, none, none]]⟩

/-- A batter table for a sample player: 30 + 20 = 50 runs. -/
def batterA : DataFrame :=
  ⟨["match_id", "runs_batter"],
   [[some (Value.vInt 1), some (Value.vInt 30)],
    [some (Value.vInt 2), some (Value.vInt 20)]]⟩

/-- A batter table for a second sample player: 10 runs. -/
def batterB : DataFrame :=
  ⟨["match_id", "runs_batter"], [[some (Value.vInt 1), some (Value.vInt 10)]]⟩

/-- A per-player event table with two catches and one run out. -/
def fielderA : DataFrame :=
  ⟨["match_id", "wicket_type"],
   [[some (Value.vInt 1), some (Value.vStr "caught")],
    [some (Value.vInt 2), some (Value.vStr "run out")],
    [some (Value.vInt 2), some (Value.vStr "caught")]]⟩

/-- A per-player event table with one non-null dismissal, neither a catch
nor a run out. -/
def fielderB : DataFrame :=
  ⟨["match_id", "wicket_type"],
   [[some (Value.vInt 1), none],
    [some (Value.vInt 2), some (Value.vStr "bowled")]]⟩

/-- Two sample player directories with batter, bowler and fielder files. -/
def samplePlayers : List PlayerData :=
  [⟨"A Sharma", some batterA, some fielderA, some fielderA⟩,
   ⟨"B Singh", some batterB, some fielderB, some fielderB⟩]

/-- A filesystem on which exactly one ball-by-ball CSV exists. -/
def fsSample : FileSystem :=
  ⟨fun p => p == "cricket/analysis/all_json/ballbyball.csv",
   fun _ => ballFull, fun _ => [], fun _ => false⟩

end CricketDash

namespace CricketDash

example : strContains "India vs Australia" "India" = true := by decide
example : strContains "India vs West Indies" "Indies" = true := by decide
example : strContains "England vs Australia" "India" = false := by decide

/-- A column label that occurs in `df.cols` has a position. -/
theorem colIdx_isSome_of_contains {df : DataFrame} {c : String}
    (h : df.cols.contains c = true) : ∃ i, df.colIdx c = some i := by
  cases hidx : df.colIdx c with
  | some i => exact ⟨i, rfl⟩
  | none =>
    exfalso
    unfold DataFrame.colIdx at hidx
    have hall := List.findIdx?_eq_none_iff.mp hidx
    have hc : c ∈ df.cols := by simpa using h
    have := hall c hc
    simp at this

/-- A successful column position implies the label occurs in `cols`. -/
theorem contains_of_colIdx {df : DataFrame} {c : String} {i : Nat}
    (h : df.colIdx c = some i) : df.cols.contains c = true := by
  by_contra hc
  have hnone : df.colIdx c = none := by
    unfold DataFrame.colIdx
    refine List.findIdx?_eq_none_iff.mpr ?_
    intro x hx
    have hcm : c ∉ df.cols := by simpa using hc
    have hxc : x ≠ c := fun he => hcm (he ▸ hx)
    simpa using hxc
  rw [h] at hnone
  simp at hnone

/-- `df[c]` succeeds with the cells at the column's position. -/
theorem col_ok {df : DataFrame} {c : String} {i : Nat}
    (h : df.colIdx c = some i) :
    df.col c = .ok (df.rows.map (fun r => r.getD i none)) := by
  unfold DataFrame.col
  rw [h]

/-- Filtering on a present column keeps exactly the rows whose cell at the
column's position satisfies the predicate. -/
theorem filterByCol_ok {df : DataFrame} {c : String} {i : Nat}
    (h : df.colIdx c = some i) (p : Cell → Bool) :
    df.filterByCol c p =
      .ok ⟨df.cols, df.rows.filter (fun r => p (r.getD i none))⟩ := by
  unfold DataFrame.filterByCol
  rw [h]

/-- A successful column selection returns the rows restricted to the
selected positions, under the selected column names. -/
theorem selectCols_ok {df : DataFrame} {cs : List String} {sub : DataFrame}
    (h : selectCols df cs = .ok sub) :
    ∃ idxs, cs.mapM (fun c => df.colIdx c) = some idxs ∧
      sub = ⟨cs, df.rows.map (fun r => idxs.map (fun i => r.getD i none))⟩ := by
  unfold selectCols at h
  cases hm : cs.mapM (fun c => df.colIdx c) with
  | none => rw [hm] at h; simp at h
  | some idxs =>
    rw [hm] at h
    simp only [Except.ok.injEq] at h
    exact ⟨idxs, rfl, h.symm⟩

/-- C8: `load_csv` returns the parsed table when the path exists and a
zero-row, zero-column table when it does not; being a total function into
`DataFrame`, it never throws for a missing file. -/
theorem load_csv_spec (fs : FileSystem) (path : String) :
    (fs.pathExists path = true → load_csv fs path = fs.readTable path) ∧
    (fs.pathExists path = false →
      load_csv fs path = emptyDF ∧ (load_csv fs path).cols = [] ∧
        (load_csv fs path).rows = []) := by
  constructor <;> intro h <;> simp [load_csv, h, emptyDF]

/-- C8 witness: on a concrete filesystem, an existing path parses to its
table and a missing path yields the empty table. -/
theorem load_csv_spec_witness :
    load_csv fsSample "cricket/analysis/all_json/ballbyball.csv" = ballFull ∧
    load_csv fsSample "cricket/analysis/all_json/info_summary.csv" = emptyDF := by
  constructor
  · exact (load_csv_spec fsSample "cricket/analysis/all_json/ballbyball.csv").1 (by decide)
  · exact ((load_csv_spec fsSample "cricket/analysis/all_json/info_summary.csv").2
      (by decide)).1

/-- C10: `get_players` computes the same list for any two values of its
`team` argument (including `none`, the unset default): the result depends
only on the category's player directory. -/
theorem get_players_team_independent (fs : FileSystem) (folder : String)
    (t1 t2 : Option String) :
    get_players fs folder t1 = get_players fs folder t2 := rfl

/-- C2: with a selected team and an empty matches table, the filter branch
of lines 44–49 is skipped, so the ball and info tables pass through
unchanged (not emptied) and `valid_match_ids` stays unbound; the per-player
filter of line 94 then fails with a `NameError`.  Evaluated at the concrete
failing input. -/
theorem teamFilter_emptyMatches_bug :
    teamFilter (some "India") tablesEmptyMatches = .ok (tablesEmptyMatches, none) ∧
    tablesEmptyMatches.ball_df.isEmptyDF = false ∧
    tablesEmptyMatches.ball_df.rows.length = 3 ∧
    filterPlayerDF (some "India") none ballSample =
      .error "NameError: valid_match_ids" := ⟨rfl, rfl, rfl, rfl⟩

/-- C4 (amended): when the three columns are present, the Totals aggregate
yields the four scalars (sum of `runs_total`, count of non-null
`wicket_type`, sum of `runs_extras`, row count); when `runs_total` is
absent, the computation fails with a `KeyError` rather than defaulting
to 0. -/
theorem totals_spec (ball : DataFrame) :
    (∀ irt iwt ire,
        ball.colIdx "runs_total" = some irt →
        ball.colIdx "wicket_type" = some iwt →
        ball.colIdx "runs_extras" = some ire →
        totals ball = .ok
          (cellSum (ball.rows.map (fun r => r.getD irt none)),
           ((ball.rows.map (fun r => r.getD iwt none)).filter
             (fun c => c.isSome)).length,
           cellSum (ball.rows.map (fun r => r.getD ire none)),
           ball.rows.length)) ∧
    (ball.colIdx "runs_total" = none →
        totals ball = .error "KeyError: runs_total") := by
  constructor
  · intro irt iwt ire hrt hwt hre
    unfold totals DataFrame.col
    rw [hrt, hwt, hre]
  · intro h
    unfold totals DataFrame.col
    rw [h]
    rfl

/-- C4 witness: the Totals scalars on a concrete full-schema table, and the
`KeyError` on the spec scenario's table, which lacks `runs_total`. -/
theorem totals_spec_witness :
    totals ballFull = .ok (5, 1, 1, 2) ∧
    totals ballSample = .error "KeyError: runs_total" := by
  constructor
  · rw [(totals_spec ballFull).1 2 4 3 (by decide) (by decide) (by decide)]
    rfl
  · exact (totals_spec ballSample).2 (by decide)

/-- C4 counterexample: on the spec's own scenario table (no `runs_total`
column), the Totals computation raises `KeyError: runs_total` instead of
defaulting the total-runs scalar to 0. -/
theorem totals_default_zero_counterexample :
    totals ballSample = .error "KeyError: runs_total" ∧
    ballSample.cols.contains "runs_total" = false ∧
    ballSample.isEmptyDF = false := ⟨rfl, by decide, by decide⟩

/-- C7 (amended): the Player of the Match Awards section is rendered exactly
when the matches table is non-empty AND has a `player_of_match` column; in
particular an absent column means the section is absent. -/
theorem pomSection_rendered_iff (m : DataFrame) :
    (pomSection m).isSome = (!m.isEmptyDF && m.cols.contains "player_of_match") := by
  unfold pomSection
  cases hcond : (!m.isEmptyDF && m.cols.contains "player_of_match") with
  | false => simp [hcond]
  | true =>
    have hc : m.cols.contains "player_of_match" = true :=
      ((Bool.and_eq_true _ _).mp hcond).2
    obtain ⟨i, hi⟩ := colIdx_isSome_of_contains hc
    unfold DataFrame.col
    rw [hi]
    simp [hcond]

/-- Each cell equals at most one of the six run values, so the six counts
sum to at most the number of cells. -/
theorem count_six_le (cells : List Cell) :
    cells.count (some (Value.vInt 0)) + cells.count (some (Value.vInt 1)) +
      cells.count (some (Value.vInt 2)) + cells.count (some (Value.vInt 3)) +
      cells.count (some (Value.vInt 4)) + cells.count (some (Value.vInt 6)) ≤
      cells.length := by
  induction cells with
  | nil => simp
  | cons c cs ih =>
    rcases c with _ | v
    · simp [List.count_cons]
      omega
    · rcases v with s | n
      · simp [List.count_cons]
        omega
      · simp only [List.count_cons, List.length_cons, beq_iff_eq, Option.some.injEq,
          Value.vInt.injEq]
        split_ifs <;> omega

/-- C3: when the ball-events table has its `runs_batter` column, the runs
distribution succeeds and contains exactly six entries, in order for the
values 0,1,2,3,4,6; the entry for value `v` counts exactly the rows whose
`runs_batter` equals `v` (so values outside the six are ignored and an
unrepresented value keeps count 0); and the six counts sum to at most the
number of ball-event rows. -/
theorem runsDistribution_spec (ball : DataFrame) (i : Nat)
    (h : ball.colIdx "runs_batter" = some i) :
    ∃ l, runsDistribution ball = .ok l ∧
      l.map Prod.fst = [0, 1, 2, 3, 4, 6] ∧
      (∀ v ∈ ([0, 1, 2, 3, 4, 6] : List Int),
        (v, (ball.rows.map (fun r => r.getD i none)).count
              (some (Value.vInt v))) ∈ l) ∧
      (l.map Prod.snd).sum ≤ ball.rows.length := by
  refine ⟨[0, 1, 2, 3, 4, 6].map
      (fun v => (v, (ball.rows.map (fun r => r.getD i none)).count
        (some (Value.vInt v)))), ?_, ?_, ?_, ?_⟩
  · unfold runsDistribution DataFrame.col
    rw [h]
  · simp
  · intro v hv
    simp only [List.mem_cons, List.not_mem_nil, or_false] at hv
    rcases hv with rfl | rfl | rfl | rfl | rfl | rfl <;>
      simp [List.mem_map]
  · have hlen : (ball.rows.map (fun r => r.getD i none)).length =
        ball.rows.length := List.length_map _ _
    have hle := count_six_le (ball.rows.map (fun r => r.getD i none))
    simp only [List.map_cons, List.map_nil, List.sum_cons, List.sum_nil]
    omega

/-- C3 witness: the spec scenario's three-ball table, whose distribution is
`[(0,1), (1,0), (2,0), (3,0), (4,1), (6,1)]`. -/
theorem runsDistribution_spec_witness :
    ∃ l, runsDistribution ballSample = .ok l ∧
      l.map Prod.fst = [0, 1, 2, 3, 4, 6] ∧
      (∀ v ∈ ([0, 1, 2, 3, 4, 6] : List Int),
        (v, (ballSample.rows.map (fun r => r.getD 1 none)).count
              (some (Value.vInt v))) ∈ l) ∧
      (l.map Prod.snd).sum ≤ ballSample.rows.length :=
  runsDistribution_spec ballSample 1 (by decide)

/-- The runs distribution of the scenario table, concretely. -/
example :
    runsDistribution ballSample =
      .ok [(0, 1), (1, 0), (2, 0), (3, 0), (4, 1), (6, 1)] := rfl

/-- C7 counterexample: a matches table that has the `player_of_match` column
but no rows — the column is present, yet the section is absent, refuting
"produced exactly when the column is present". -/
theorem pomSection_counterexample :
    pomSection ⟨["player_of_match"], []⟩ = none ∧
    (DataFrame.mk ["player_of_match"] []).cols.contains "player_of_match" = true := by
  decide

/-- The model of `sort_values(..., ascending=False).head(n)`: the result has
at most `n` entries, is pairwise non-increasing in the key, and only
contains entries of the input. -/
theorem sortByDesc_take_spec {α β : Type} [LinearOrder β] (key : α → β)
    (l : List α) (n : Nat) :
    ((sortByDesc key l).take n).length ≤ n ∧
    ((sortByDesc key l).take n).Pairwise (fun a b => key b ≤ key a) ∧
    (∀ e ∈ (sortByDesc key l).take n, e ∈ l) := by
  refine ⟨List.length_take_le n _, ?_, ?_⟩
  · have hs : (sortByDesc key l).Pairwise (fun a b => key b ≤ key a) := by
      haveI : IsTotal α (fun a b => key b ≤ key a) :=
        ⟨fun a b => le_total (key b) (key a)⟩
      haveI : IsTrans α (fun a b => key b ≤ key a) :=
        ⟨fun a b c hab hbc => le_trans hbc hab⟩
      exact List.sorted_insertionSort _ l
    exact hs.sublist (List.take_sublist n _)
  · intro e he
    exact (List.mem_insertionSort _).mp (List.mem_of_mem_take he)

/-- C5: whenever a leaderboard computation succeeds, its result is pairwise
non-increasing in the ranking metric (runs, wickets, total) and has at most
10 entries — for all three leaderboards. -/
theorem leaderboards_sorted (team : Option String) (vids : Option (List Cell))
    (players : List PlayerData) :
    (∀ l, topRunScorers team vids players = .ok l →
      l.length ≤ 10 ∧ l.Pairwise (fun a b => b.2 ≤ a.2)) ∧
    (∀ l, topWicketTakers team vids players = .ok l →
      l.length ≤ 10 ∧ l.Pairwise (fun a b => b.2 ≤ a.2)) ∧
    (∀ l, topFielders team vids players = .ok l →
      l.length ≤ 10 ∧ l.Pairwise (fun a b => b.2.1 ≤ a.2.1)) := by
  refine ⟨?_, ?_, ?_⟩
  · intro l h
    unfold topRunScorers at h
    cases hc : collectRunData team vids players with
    | error e => rw [hc] at h; simp at h
    | ok data =>
      rw [hc] at h
      simp only [Except.ok.injEq] at h
      subst h
      exact ⟨(sortByDesc_take_spec Prod.snd data 10).1,
        (sortByDesc_take_spec Prod.snd data 10).2.1⟩
  · intro l h
    unfold topWicketTakers at h
    cases hc : collectWkData team vids players with
    | error e => rw [hc] at h; simp at h
    | ok data =>
      rw [hc] at h
      simp only [Except.ok.injEq] at h
      subst h
      exact ⟨(sortByDesc_take_spec Prod.snd data 10).1,
        (sortByDesc_take_spec Prod.snd data 10).2.1⟩
  · intro l h
    unfold topFielders at h
    cases hc : collectFldData team vids players with
    | error e => rw [hc] at h; simp at h
    | ok data =>
      rw [hc] at h
      simp only [Except.ok.injEq] at h
      subst h
      exact ⟨(sortByDesc_take_spec (fun e => e.2.1) data 10).1,
        (sortByDesc_take_spec (fun e => e.2.1) data 10).2.1⟩

/-- C5 witness: the three leaderboards on the two sample players, with their
concrete sorted values. -/
theorem leaderboards_sorted_witness :
    topRunScorers none none samplePlayers =
      .ok [("A Sharma", 50), ("B Singh", 10)] ∧
    topWicketTakers none none samplePlayers =
      .ok [("A Sharma", 3), ("B Singh", 1)] ∧
    topFielders none none samplePlayers =
      .ok [("A Sharma", 3, 2, 1), ("B Singh", 0, 0, 0)] ∧
    ([("A Sharma", 50), ("B Singh", 10)] : List (String × Int)).length ≤ 10 ∧
    ([("A Sharma", 50), ("B Singh", 10)] : List (String × Int)).Pairwise
      (fun a b => b.2 ≤ a.2) ∧
    ([("A Sharma", 3), ("B Singh", 1)] : List (String × Nat)).Pairwise
      (fun a b => b.2 ≤ a.2) ∧
    ([("A Sharma", 3, 2, 1), ("B Singh", 0, 0, 0)] :
        List (String × Nat × Nat × Nat)).Pairwise
      (fun a b => b.2.1 ≤ a.2.1) := by
  obtain ⟨h1, h2, h3⟩ := leaderboards_sorted none none samplePlayers
  exact ⟨rfl, rfl, rfl, (h1 _ rfl).1, (h1 _ rfl).2, (h2 _ rfl).2, (h3 _ rfl).2⟩

/-- Every entry produced by the fielder accumulation has
`total = catches + runouts` by construction. -/
theorem collectFldData_total (team : Option String) (vids : Option (List Cell)) :
    ∀ ps l, collectFldData team vids ps = .ok l →
      ∀ e ∈ l, e.2.1 = e.2.2.1 + e.2.2.2 := by
  intro ps
  induction ps with
  | nil =>
    intro l h e he
    unfold collectFldData at h
    simp only [Except.ok.injEq] at h
    subst h
    simp at he
  | cons p ps ih =>
    intro l h e he
    unfold collectFldData at h
    cases hf : p.fielder with
    | none =>
      rw [hf] at h
      simp only [] at h
      exact ih l h e he
    | some df =>
      rw [hf] at h
      simp only [] at h
      cases h2 : filterPlayerDF team vids df with
      | error e2 => rw [h2] at h; simp at h
      | ok df2 =>
        rw [h2] at h
        simp only [] at h
        cases h3 : df2.col "wicket_type" with
        | error e3 => rw [h3] at h; simp at h
        | ok cells =>
          rw [h3] at h
          simp only [] at h
          cases h4 : collectFldData team vids ps with
          | error e4 => rw [h4] at h; simp at h
          | ok rest =>
            rw [h4] at h
            simp only [Except.ok.injEq] at h
            subst h
            rcases List.mem_cons.mp he with rfl | hmem
            · rfl
            · exact ih rest h4 e hmem

/-- C9: every player listed in the top-fielders leaderboard reports a total
equal to catches plus runouts, the counts of `wicket_type == "caught"` and
`wicket_type == "run out"` rows of that player's fielder table. -/
theorem topFielders_total_eq (team : Option String) (vids : Option (List Cell))
    (players : List PlayerData) (l : List (String × Nat × Nat × Nat))
    (h : topFielders team vids players = .ok l) :
    ∀ e ∈ l, e.2.1 = e.2.2.1 + e.2.2.2 := by
  intro e he
  unfold topFielders at h
  cases hc : collectFldData team vids players with
  | error e2 => rw [hc] at h; simp at h
  | ok data =>
    rw [hc] at h
    simp only [Except.ok.injEq] at h
    subst h
    have hmem := (sortByDesc_take_spec (fun x => x.2.1) data 10).2.2 e he
    exact collectFldData_total team vids players data hc e hmem

/-- C9 witness: on the sample players, the leaderboard's top entry has
total 3 = 2 catches + 1 runout. -/
theorem topFielders_total_eq_witness :
    topFielders none none samplePlayers =
      .ok [("A Sharma", 3, 2, 1), ("B Singh", 0, 0, 0)] ∧
    (("A Sharma", 3, 2, 1) : String × Nat × Nat × Nat).2.1 =
      (("A Sharma", 3, 2, 1) : String × Nat × Nat × Nat).2.2.1 +
        (("A Sharma", 3, 2, 1) : String × Nat × Nat × Nat).2.2.2 :=
  ⟨rfl, topFielders_total_eq none none samplePlayers _ rfl _
    (List.mem_cons_self _ _)⟩

/-- C6 (amended): a rendered Win Margins preview implies a margin column is
present, has exactly the four `marginCols` columns, and has at most 20
rows; and when the matches table is non-empty and all four columns are
present, the preview is exactly the four-column restriction with the
all-null rows dropped, truncated to 20 rows.  (When one of the four columns
is absent the selection fails with a `KeyError` instead — see the
counterexample.) -/
theorem winMargins_spec (m : DataFrame) :
    (∀ d, winMargins m = .ok (some d) →
      (m.cols.contains "outcome.by.wickets"
        || m.cols.contains "outcome.by.runs") = true ∧
      d.cols = marginCols ∧ d.rows.length ≤ 20) ∧
    (∀ iw iww iwr ir,
      m.isEmptyDF = false →
      m.colIdx "outcome.winner" = some iw →
      m.colIdx "outcome.by.wickets" = some iww →
      m.colIdx "outcome.by.runs" = some iwr →
      m.colIdx "outcome.result" = some ir →
      winMargins m = .ok (some ⟨marginCols,
        ((m.rows.map (fun r =>
            [r.getD iw none, r.getD iww none, r.getD iwr none,
             r.getD ir none])).filter
          (fun r => r.any (fun c => c.isSome))).take 20⟩)) := by
  constructor
  · intro d h
    unfold winMargins at h
    by_cases h1 : (!m.isEmptyDF && m.cols.contains "outcome.winner") = true
    · rw [if_pos h1] at h
      by_cases h2 : (m.cols.contains "outcome.by.wickets"
          || m.cols.contains "outcome.by.runs") = true
      · rw [if_pos h2] at h
        refine ⟨h2, ?_⟩
        cases h3 : selectCols m marginCols with
        | error e => rw [h3] at h; simp at h
        | ok sub =>
          rw [h3] at h
          simp only [Except.ok.injEq, Option.some.injEq] at h
          obtain ⟨idxs, hidx, hsub⟩ := selectCols_ok h3
          subst h
          constructor
          · rw [hsub]; rfl
          · rw [hsub]; exact List.length_take_le _ _
      · rw [if_neg h2] at h; simp at h
    · rw [if_neg h1] at h; simp at h
  · intro iw iww iwr ir hne hiw hiww hiwr hir
    have hcw : m.cols.contains "outcome.winner" = true := contains_of_colIdx hiw
    have hcww : m.cols.contains "outcome.by.wickets" = true :=
      contains_of_colIdx hiww
    unfold winMargins
    rw [if_pos (by rw [hne, hcw]; rfl)]
    rw [if_pos (by rw [hcww]; rfl)]
    have hsel : selectCols m marginCols = .ok ⟨marginCols,
        m.rows.map (fun r => [iw, iww, iwr, ir].map (fun i => r.getD i none))⟩ := by
      unfold selectCols
      have hmm : marginCols.mapM (fun c => m.colIdx c) = some [iw, iww, iwr, ir] := by
        simp [marginCols, List.mapM.loop, hiw, hiww, hiwr, hir]
      rw [hmm]
    rw [hsel]
    simp [headDF, dropnaAll]

/-- C6 witness: the full-schema matches table, whose preview drops the
all-null second row and keeps the first row's four outcome cells. -/
theorem winMargins_spec_witness :
    winMargins matchesFull = .ok (some ⟨marginCols,
      ((matchesFull.rows.map (fun r =>
          [r.getD 2 none, r.getD 3 none, r.getD 4 none, r.getD 5 none])).filter
        (fun r => r.any (fun c => c.isSome))).take 20⟩) ∧
    winMargins matchesFull = .ok (some ⟨marginCols,
      [[some (Value.vStr "India"), some (Value.vInt 5), none, none]]⟩) :=
  ⟨(winMargins_spec matchesFull).2 2 3 4 5 rfl rfl rfl rfl rfl, rfl⟩

/-- C1: with a selected team and a non-empty matches table carrying the
`teams` and `match_id` columns, the team filter selects exactly the matches
rows whose `teams` cell contains the team name as a case-sensitive
substring, collects their `match_id` values (as a set) into
`valid_match_ids`, and restricts the ball, info and matches tables — and
every per-player table via the line-94/107/120 step — to the rows whose
`match_id` lies in that same set. -/
theorem teamFilter_spec (tm : String) (t : Tables) (it im ibm iim : Nat)
    (hne : t.matches_df.isEmptyDF = false)
    (hteams : t.matches_df.colIdx "teams" = some it)
    (hmid : t.matches_df.colIdx "match_id" = some im)
    (hbm : t.ball_df.colIdx "match_id" = some ibm)
    (him : t.info_df.colIdx "match_id" = some iim) :
    ∃ vids : List Cell,
      teamFilter (some tm) t = .ok
        (⟨⟨t.ball_df.cols,
            t.ball_df.rows.filter (fun r => vids.contains (r.getD ibm none))⟩,
          ⟨t.info_df.cols,
            t.info_df.rows.filter (fun r => vids.contains (r.getD iim none))⟩,
          ⟨t.matches_df.cols,
            t.matches_df.rows.filter (fun r => vids.contains (r.getD im none))⟩⟩,
         some vids) ∧
      (∀ c : Cell, c ∈ vids ↔
        c ∈ (t.matches_df.rows.filter
          (fun r => cellContainsStr tm (r.getD it none))).map
            (fun r => r.getD im none)) ∧
      (∀ pdf : DataFrame, ∀ ip, pdf.colIdx "match_id" = some ip →
        filterPlayerDF (some tm) (some vids) pdf =
          .ok ⟨pdf.cols,
            pdf.rows.filter (fun r => vids.contains (r.getD ip none))⟩) := by
  refine ⟨((t.matches_df.rows.filter
      (fun r => cellContainsStr tm (r.getD it none))).map
        (fun r => r.getD im none)).dedup, ?_, ?_, ?_⟩
  · unfold teamFilter
    simp only []
    rw [if_neg (by rw [hne]; simp)]
    rw [filterByCol_ok hteams]
    simp only []
    rw [@col_ok ⟨t.matches_df.cols,
      t.matches_df.rows.filter (fun r => cellContainsStr tm (r.getD it none))⟩
      "match_id" im hmid]
    simp only []
    rw [filterByCol_ok hbm]
    simp only []
    rw [filterByCol_ok him]
    simp only []
    rw [filterByCol_ok hmid]
  · intro c
    simp [List.mem_dedup]
  · intro pdf ip hip
    unfold filterPlayerDF
    simp only []
    rw [filterByCol_ok hip]

/-- C1 witness: the spec scenario — filtering `tablesScenario` by "India"
keeps match 1 only, across the ball, info and matches tables and a
per-player table. -/
theorem teamFilter_spec_witness :
    ∃ vids : List Cell,
      teamFilter (some "India") tablesScenario = .ok
        (⟨⟨tablesScenario.ball_df.cols,
            tablesScenario.ball_df.rows.filter
              (fun r => vids.contains (r.getD 0 none))⟩,
          ⟨tablesScenario.info_df.cols,
            tablesScenario.info_df.rows.filter
              (fun r => vids.contains (r.getD 0 none))⟩,
          ⟨tablesScenario.matches_df.cols,
            tablesScenario.matches_df.rows.filter
              (fun r => vids.contains (r.getD 0 none))⟩⟩,
         some vids) ∧
      (∀ c : Cell, c ∈ vids ↔
        c ∈ (tablesScenario.matches_df.rows.filter
          (fun r => cellContainsStr "India" (r.getD 1 none))).map
            (fun r => r.getD 0 none)) ∧
      (∀ pdf : DataFrame, ∀ ip, pdf.colIdx "match_id" = some ip →
        filterPlayerDF (some "India") (some vids) pdf =
          .ok ⟨pdf.cols,
            pdf.rows.filter (fun r => vids.contains (r.getD ip none))⟩) :=
  teamFilter_spec "India" tablesScenario 1 0 0 0 rfl rfl rfl rfl rfl

/-- The scenario's concrete filter results: team "India" keeps only match 1,
team "Australia" keeps both matches. -/
example :
    teamFilter (some "India") tablesScenario = .ok
      (⟨⟨["match_id", "runs_batter"],
         [[some (Value.vInt 1), some (Value.vInt 4)],
          [some (Value.vInt 1), some (Value.vInt 0)]]⟩,
        ⟨["match_id", "toss_winner"],
         [[some (Value.vInt 1), some (Value.vStr "India")]]⟩,
        ⟨["match_id", "teams"],
         [[some (Value.vInt 1), some (Value.vStr "India vs Australia")]]⟩⟩,
       some [some (Value.vInt 1)]) := rfl

example :
    teamFilter (some "Australia") tablesScenario = .ok
      (⟨ballSample, infoSample, matchesScenario⟩,
       some [some (Value.vInt 1), some (Value.vInt 2)]) := rfl

/-- C6 counterexample: a matches table with `outcome.winner` and
`outcome.by.wickets` but without `outcome.by.runs`/`outcome.result`: the
margin-column condition holds, yet no preview is produced — line 163's
four-column selection raises a `KeyError` instead. -/
theorem winMargins_counterexample :
    winMargins matchesNoResult = .error "KeyError: column selection" ∧
    matchesNoResult.cols.contains "outcome.by.wickets" = true ∧
    matchesNoResult.isEmptyDF = false := ⟨rfl, by decide, by decide⟩

end CricketDash
